import Mathlib

/-!
Verification of the resolution-and-caching orchestration layer of the
lexi-backend service (a wrapper over the Jagriti case-management portal).

The Python source is shallowly embedded as follows:
* Python strings are lists of Unicode codepoints (`Str := List Nat`); the
  embedded character operations (`str.strip`, `str.upper`, `str.replace`)
  mirror Python semantics on the ASCII range used by the claims.
* The service singletons (`cache_service`, `mapper_service`, `case_service`,
  `jagriti_client`) become pure functions that thread an explicit cache
  state and emit a trace of upstream calls; the upstream portal is a
  deterministic oracle (`Upstream`).  TTL timestamps are abstracted to
  validity booleans / presence-within-TTL, which is the only way the
  source consults them.
* Python truthiness (`if cached:`, `not request.judge_id`, `not from_date`)
  is modelled explicitly: an empty list / empty string / `None` / `0` is
  falsy.
* Exceptions become `Except` values; the tenacity retry decorator around
  `_make_request` is embedded as an explicit attempt loop with the
  decorator's stop/retry parameters.
-/

/-- A Python string as its list of Unicode codepoints. -/
abbrev Str : Type := List Nat

/-- Embed a Lean string literal as codepoints (used only to write examples). -/
def litStr (s : String) : Str := s.toList.map Char.toNat

/-- The complete set of codepoints removed by Python `str.strip()` — the
characters for which `str.isspace()` holds: tab, newline, vertical tab,
form feed, carriage return, the file/group/record/unit separators
`\x1c`–`\x1f`, space, next line `\x85`, no-break space `\xa0`, ogham space
mark, the `\x2000`–`\x200a` spaces, line and paragraph separators, narrow
no-break space, medium mathematical space and ideographic space. -/
def pyWhitespace : List Nat :=
  [9, 10, 11, 12, 13, 28, 29, 30, 31, 32, 133, 160, 5760,
   8192, 8193, 8194, 8195, 8196, 8197, 8198, 8199, 8200, 8201, 8202,
   8232, 8233, 8239, 8287, 12288]

/-- Python `str.strip()`: drop leading and trailing whitespace. -/
def stripStr (s : Str) : Str :=
  ((List.dropWhile (fun c => c ∈ pyWhitespace) s).reverse.dropWhile
    (fun c => c ∈ pyWhitespace)).reverse

/-- Python `str.upper()` on one codepoint (ASCII range). -/
def upperN (c : Nat) : Nat := if 97 ≤ c ∧ c ≤ 122 then c - 32 else c

/-- `MapperService._normalize_text`: strip, upper-case, then remove every
occurrence of `"("` (40), `")"` (41) and `" "` (32). -/
def normalize_text (text : Str) : Str :=
  ((stripStr text).map upperN).filter (fun c => ¬(c = 40 ∨ c = 41 ∨ c = 32))

/-- Whether `s` occurs at the start of `t` (helper for Python `in`). -/
def leadsB : Str → Str → Bool
  | [], _ => true
  | _ :: _, [] => false
  | a :: s, b :: t => a = b && leadsB s t

/-- Python substring containment `s in t`. -/
def substrB (s t : Str) : Bool :=
  if leadsB s t then true
  else
    match t with
    | [] => false
    | _ :: t2 => substrB s t2

/-- `MapperService._fuzzy_match`: equal after normalization, or the
normalized search term is a substring (Python `in`) of the normalized
candidate. -/
def fuzzy_match (search_text target_text : Str) : Bool :=
  let search := normalize_text search_text
  let target := normalize_text target_text
  if search = target then true
  else if substrB search target then true
  else false

/-! ## Retrying upstream client (`jagriti_client._make_request`)

The transport outcome of one attempt at the httpx level. -/

inductive HttpxOutcome where
  | timeout
  | connectError
  | httpStatusError (code : Nat)
  | success (resp : Nat)
deriving DecidableEq

/-- The exception (if any) that escapes one execution of the body of
`_make_request` — i.e. what the `tenacity` decorator observes.  The body
catches every `httpx` exception and re-raises an application exception:
`httpx.TimeoutException` becomes `APITimeoutException`,
`httpx.ConnectError` becomes `APIConnectionException`, and
`httpx.HTTPStatusError` (raised by `raise_for_status` on a non-2xx
response) becomes `JagritiAPIException` carrying the status code. -/
inductive RaisedExc where
  | httpxTimeout
  | httpxConnect
  | apiTimeout
  | apiConnection
  | jagritiAPIError (code : Nat)
deriving DecidableEq

/-- The retry predicate of the decorator:
`retry_if_exception_type((httpx.TimeoutException, httpx.ConnectError))`. -/
def isRetryableExc : RaisedExc → Bool
  | .httpxTimeout => true
  | .httpxConnect => true
  | _ => false

/-- One execution of the body of `_make_request`, given the transport
outcome of the underlying httpx call. -/
def make_request_body : HttpxOutcome → Except RaisedExc Nat
  | .timeout => .error .apiTimeout
  | .connectError => .error .apiConnection
  | .httpStatusError code => .error (.jagritiAPIError code)
  | .success resp => .ok resp

/-- The `tenacity` retry loop: run the body on the outcome of attempt `i`;
on success return; on an exception, retry iff the predicate holds for the
raised exception and the stop condition (`stop_after_attempt`) has not been
reached, else re-raise.  `fuel` is the number of retries still permitted;
the returned `Nat` is the number of attempts made.  The exponential-backoff
waits (`wait_exponential`) only delay attempts and never change the value,
so they are not modelled. -/
def tenacityLoop (pred : RaisedExc → Bool) (outcomes : Nat → HttpxOutcome) :
    Nat → Nat → Except RaisedExc Nat × Nat
  | i, fuel =>
    match make_request_body (outcomes i), fuel with
    | .ok r, _ => (.ok r, i + 1)
    | .error e, 0 => (.error e, i + 1)
    | .error e, fuel2 + 1 =>
      if pred e then tenacityLoop pred outcomes (i + 1) fuel2
      else (.error e, i + 1)

/-- `_make_request` as decorated: `stop_after_attempt(3)` allows at most 2
retries after the first attempt. -/
def make_request (outcomes : Nat → HttpxOutcome) : Except RaisedExc Nat × Nat :=
  tenacityLoop isRetryableExc outcomes 0 2

/-! ## Domain records (the dict shapes produced by `mapper_service`) -/

/-- A formatted state/commission entry (the dicts built in
`get_all_states` / `get_commissions_by_state`). -/
structure Commission where
  commission_id : Nat
  commission_name : Str
  is_circuit_bench : Bool
  is_active : Bool
deriving DecidableEq

/-- A raw region entry of an upstream response (`data` item of
`getStateCommissionAndCircuitBench` / `getDistrictCommissionByCommissionId`). -/
structure RegionRaw where
  commissionId : Nat
  commissionNameEn : Str
  circuitAdditionBenchStatus : Bool
  activeStatus : Bool
deriving DecidableEq

/-- The formatting list comprehension shared by `get_all_states` and
`get_commissions_by_state`: keep entries with `activeStatus` and rename
the fields. -/
def format_regions (rs : List RegionRaw) : List Commission :=
  (rs.filter (fun r => r.activeStatus)).map
    (fun r => ⟨r.commissionId, r.commissionNameEn, r.circuitAdditionBenchStatus, r.activeStatus⟩)

/-- A formatted category entry (`get_all_categories`). -/
structure Category where
  category_id : Nat
  category_name : Str
deriving DecidableEq

/-- A raw category entry of the upstream `caseCategory` response. -/
structure CategoryRaw where
  caseCategoryId : Nat
  caseCategoryNameEn : Str
deriving DecidableEq

def format_categories (cs : List CategoryRaw) : List Category :=
  cs.map (fun c => ⟨c.caseCategoryId, c.caseCategoryNameEn⟩)

/-- A formatted judge entry (`get_judges_by_commission`). -/
structure Judge where
  judge_id : Nat
  judge_name : Str
  commission_id : Nat
deriving DecidableEq

/-- A raw judge entry of the upstream `getJudgeListForHearing` response. -/
structure JudgeRaw where
  judgeId : Nat
  judgeName : Str
deriving DecidableEq

def format_judges (commission_id : Nat) (js : List JudgeRaw) : List Judge :=
  js.map (fun j => ⟨j.judgeId, j.judgeName, commission_id⟩)

/-! ## Raw cases and `CaseResponse` formatting (`case_service`) -/

/-- A Python value sitting in a raw upstream case dict. -/
inductive PyVal where
  | vNone
  | vStr (s : Str)
  | vInt (n : Int)
  | vBool (b : Bool)
deriving DecidableEq

/-- A raw upstream case record: a Python dict. -/
abbrev RawCase := List (Str × PyVal)

/-- Python `dict.get(key, default)`. -/
def dictGet (d : RawCase) (key : Str) (default : PyVal) : PyVal :=
  match d.find? (fun kv => kv.1 = key) with
  | some kv => kv.2
  | none => default

/-- The canonical case record (`CaseResponse` pydantic model): four
required `str` fields and four `Optional[str]` fields. -/
structure CaseResponse where
  case_number : Str
  case_stage : Str
  filing_date : Str
  complainant : Str
  complainant_advocate : Option Str
  respondent : Option Str
  respondent_advocate : Option Str
  document_link : Option Str
deriving DecidableEq

/-- pydantic validation of a required `str` field. -/
def asStr : PyVal → Option Str
  | .vStr s => some s
  | _ => none

/-- pydantic validation of an `Optional[str]` field. -/
def asOptStr : PyVal → Option (Option Str)
  | .vNone => some none
  | .vStr s => some (some s)
  | _ => none

/-- `CaseService._format_case_data`: extract each field with `dict.get`
(required fields default to `""`, optional ones to `None`) and build a
`CaseResponse`; any validation failure raises `CaseDataException`,
modelled as `none`. -/
def format_case_data (raw : RawCase) : Option CaseResponse := do
  let case_number ← asStr (dictGet raw (litStr "caseNumber") (.vStr []))
  let case_stage ← asStr (dictGet raw (litStr "caseStageName") (.vStr []))
  let filing_date ← asStr (dictGet raw (litStr "caseFilingDate") (.vStr []))
  let complainant ← asStr (dictGet raw (litStr "complainantName") (.vStr []))
  let complainant_advocate ← asOptStr (dictGet raw (litStr "complainantAdvocateName") .vNone)
  let respondent ← asOptStr (dictGet raw (litStr "respondentName") .vNone)
  let respondent_advocate ← asOptStr (dictGet raw (litStr "respondentAdvocateName") .vNone)
  let document_link ← asOptStr (dictGet raw (litStr "documentBase64") .vNone)
  pure ⟨case_number, case_stage, filing_date, complainant,
        complainant_advocate, respondent, respondent_advocate, document_link⟩

/-- The formatting loop of `_search_cases_by_type` (STEP 5): format each
raw case, append successes, skip (log and continue) failures. -/
def format_all_cases : List RawCase → List CaseResponse
  | [] => []
  | raw :: rest =>
    match format_case_data raw with
    | some fc => fc :: format_all_cases rest
    | none => format_all_cases rest

/-! ## Upstream oracle, cache state and call traces -/

/-- The JSON body sent by `jagriti_client.search_cases` to
`getCaseDetailsBySearchType`. -/
structure SearchPayload where
  commissionId : Nat
  page : Nat
  size : Nat
  fromDate : Str
  toDate : Str
  dateRequestType : Nat
  serchType : Nat
  serchTypeValue : Str
  judgeId : Str
deriving DecidableEq

/-- The `data` field of an upstream search response: either a bare list
or a `{content: [...]}` page envelope. -/
inductive SearchData where
  | bareList (cases : List RawCase)
  | contentEnvelope (cases : List RawCase)
deriving DecidableEq

/-- `data = response.get("data", []); cases_data = data if isinstance(data, list)
else data.get("content", [])`. -/
def extract_cases : SearchData → List RawCase
  | .bareList cases => cases
  | .contentEnvelope cases => cases

/-- The upstream portal as a deterministic oracle (this development models
the success paths of the resolution layer; transport failures are the
subject of the retry-client model above). -/
structure Upstream where
  states_data : List RegionRaw
  districts_data : Nat → List RegionRaw
  categories_data : List CategoryRaw
  judges_data : Nat → List JudgeRaw
  search_response : SearchPayload → SearchData

/-- One upstream HTTP call, as recorded in the call trace. -/
inductive UpstreamCall where
  | getStates
  | getDistricts (commission_id : Nat)
  | getCategories
  | getJudges (commission_id : Nat)
  | searchCases (payload : SearchPayload)
deriving DecidableEq

/-- The mutable state of `CacheService`.  The `datetime` timestamps are
abstracted to what the source reads from them: `states_valid` /
`categories_valid` is the result of the `_is_cache_valid` TTL check, and
an entry present in the per-key assoc lists is one whose `TTLCache` slot
has not expired. -/
structure CacheState where
  states_cache : Option (List Commission)
  states_valid : Bool
  categories_cache : Option (List Category)
  categories_valid : Bool
  commissions_cache : List (Nat × List Commission)
  judges_cache : List (Nat × List Judge)
  cases_cache : List (Str × List CaseResponse)
deriving DecidableEq

/-- The empty cache (`CacheService.__init__` / `clear_all`). -/
def emptyCache : CacheState := ⟨none, false, none, false, [], [], []⟩

/-- `TTLCache.get` over the assoc-list model. -/
def cacheLookup {α : Type} (key : Nat) (entries : List (Nat × α)) : Option α :=
  match entries.find? (fun e => e.1 = key) with
  | some e => some e.2
  | none => none

/-- The error taxonomy of the resolution layer (`app.utils.exceptions`). -/
inductive MapperError where
  | stateNotFound (state_name : Str)
  | commissionNotFound (commission_name : Str)
  | categoryNotFound (category_name : Str)
  | judgeNotFound (judge_name : Str)
deriving DecidableEq

/-! ## `MapperService` -/

/-- `get_all_states`: if the TTL check passes and the cached value is
truthy (a non-empty list), serve it; otherwise fetch from upstream,
keep active entries, cache and return.  Returns the value, the new cache
state and the trace of upstream calls issued. -/
def get_all_states (u : Upstream) (c : CacheState) :
    List Commission × CacheState × List UpstreamCall :=
  let hit : Option (List Commission) :=
    if c.states_valid then
      match c.states_cache with
      | some data => if data.isEmpty then none else some data
      | none => none
    else none
  match hit with
  | some data => (data, c, [])
  | none =>
    let filtered_states := format_regions u.states_data
    (filtered_states,
     { c with states_cache := some filtered_states, states_valid := true },
     [.getStates])

/-- `find_state_by_name`: first fuzzy match over `get_all_states`. -/
def find_state_by_name (u : Upstream) (c : CacheState) (state_name : Str) :
    Except MapperError Commission × CacheState × List UpstreamCall :=
  let (states, c1, calls) := get_all_states u c
  match states.find? (fun s => fuzzy_match state_name s.commission_name) with
  | some s => (.ok s, c1, calls)
  | none => (.error (.stateNotFound state_name), c1, calls)

/-- `get_commissions_by_state`: served from cache whenever the key is
present (`if cached_data is not None`, so a cached empty list is a hit);
otherwise fetch, keep active entries, cache and return. -/
def get_commissions_by_state (u : Upstream) (c : CacheState) (state_id : Nat) :
    List Commission × CacheState × List UpstreamCall :=
  match cacheLookup state_id c.commissions_cache with
  | some data => (data, c, [])
  | none =>
    let formatted_districts := format_regions (u.districts_data state_id)
    (formatted_districts,
     { c with commissions_cache := (state_id, formatted_districts) :: c.commissions_cache },
     [.getDistricts state_id])

/-- The match-collection loop of `find_commission_by_name` (STEP 4). -/
def find_commission_matches (commission_name : Str) (commissions : List Commission) :
    List Commission :=
  commissions.filter (fun commission => fuzzy_match commission_name commission.commission_name)

/-- `matches.sort(key=lambda x: x["is_circuit"])` — Python `list.sort` is
stable and `False < True`, so sorting by a boolean key yields exactly the
non-circuit entries in original order followed by the circuit entries in
original order. -/
def sort_matches_by_circuit (ms : List Commission) : List Commission :=
  ms.filter (fun m => !m.is_circuit_bench) ++ ms.filter (fun m => m.is_circuit_bench)

/-- STEPs 3–6 of `find_commission_by_name`, after the state has been
resolved and its commissions fetched: empty commission list means the
state itself is the commission; otherwise collect fuzzy matches,
prioritize non-circuit benches, and return the first, or raise
`CommissionNotFoundException` when nothing matches. -/
def find_commission_by_name_core (state_id : Nat) (commissions : List Commission)
    (commission_name : Str) : Except MapperError Nat :=
  if commissions.isEmpty then .ok state_id
  else
    match sort_matches_by_circuit (find_commission_matches commission_name commissions) with
    | selected :: _ => .ok selected.commission_id
    | [] => .error (.commissionNotFound commission_name)

/-- `find_commission_by_name`: resolve the state, list its commissions
(cache-first), then select via `find_commission_by_name_core`. -/
def find_commission_by_name (u : Upstream) (c : CacheState)
    (state_name commission_name : Str) :
    Except MapperError Nat × CacheState × List UpstreamCall :=
  match find_state_by_name u c state_name with
  | (.error e, c1, calls1) => (.error e, c1, calls1)
  | (.ok state, c1, calls1) =>
    let (commissions, c2, calls2) := get_commissions_by_state u c1 state.commission_id
    (find_commission_by_name_core state.commission_id commissions commission_name,
     c2, calls1 ++ calls2)

/-- `get_all_categories`: same whole-value truthiness discipline as
`get_all_states`. -/
def get_all_categories (u : Upstream) (c : CacheState) :
    List Category × CacheState × List UpstreamCall :=
  let hit : Option (List Category) :=
    if c.categories_valid then
      match c.categories_cache with
      | some data => if data.isEmpty then none else some data
      | none => none
    else none
  match hit with
  | some data => (data, c, [])
  | none =>
    let formatted_categories := format_categories u.categories_data
    (formatted_categories,
     { c with categories_cache := some formatted_categories, categories_valid := true },
     [.getCategories])

/-- `find_category_by_name`: first fuzzy match over `get_all_categories`. -/
def find_category_by_name (u : Upstream) (c : CacheState) (category_name : Str) :
    Except MapperError Category × CacheState × List UpstreamCall :=
  let (categories, c1, calls) := get_all_categories u c
  match categories.find? (fun cat => fuzzy_match category_name cat.category_name) with
  | some cat => (.ok cat, c1, calls)
  | none => (.error (.categoryNotFound category_name), c1, calls)

/-- `get_judges_by_commission`: same per-key `is not None` discipline as
`get_commissions_by_state`. -/
def get_judges_by_commission (u : Upstream) (c : CacheState) (commission_id : Nat) :
    List Judge × CacheState × List UpstreamCall :=
  match cacheLookup commission_id c.judges_cache with
  | some data => (data, c, [])
  | none =>
    let formatted_judges := format_judges commission_id (u.judges_data commission_id)
    (formatted_judges,
     { c with judges_cache := (commission_id, formatted_judges) :: c.judges_cache },
     [.getJudges commission_id])

/-- `find_judge_by_name`: first fuzzy match over the judges of one
commission. -/
def find_judge_by_name (u : Upstream) (c : CacheState) (commission_id : Nat)
    (judge_name : Str) :
    Except MapperError Judge × CacheState × List UpstreamCall :=
  let (judges, c1, calls) := get_judges_by_commission u c commission_id
  match judges.find? (fun judge => fuzzy_match judge_name judge.judge_name) with
  | some judge => (.ok judge, c1, calls)
  | none => (.error (.judgeNotFound judge_name), c1, calls)

/-! ## `jagriti_client.search_cases` and the search orchestrator -/

/-- Python `str(n)` for a non-negative integer, as codepoints. -/
def natToStr (n : Nat) : Str := (Nat.toDigits 10 n).map Char.toNat

/-- `jagriti_client.search_cases`: build the JSON payload; for industry (6)
and judge (7) searches `dateRequestType = 2`, otherwise `1`. -/
def search_cases_payload (commission_id search_type : Nat) (search_value : Str)
    (from_date to_date : Str) (page size : Nat) (judge_id : Str) : SearchPayload :=
  let date_request_type := if search_type = 6 ∨ search_type = 7 then 2 else 1
  { commissionId := commission_id
    page := page
    size := size
    fromDate := from_date
    toDate := to_date
    dateRequestType := date_request_type
    serchType := search_type
    serchTypeValue := search_value
    judgeId := judge_id }

/-- `CaseService._get_default_date_range`: first and last calendar day of
the current year (`datetime.now().year` is the ambient `year` argument). -/
def get_default_date_range (year : Nat) : Str × Str :=
  (natToStr year ++ litStr "-01-01", natToStr year ++ litStr "-12-31")

/-- Python truthiness of `Optional[str]`: `None` and `""` are falsy
(`if not from_date or not to_date:`). -/
def falsyOptStr : Option Str → Bool
  | none => true
  | some s => s.isEmpty

/-- Python truthiness of `Optional[int]`: `None` and `0` are falsy
(`not request.judge_id`, `not request.category_id`). -/
def falsyOptNat : Option Nat → Bool
  | none => true
  | some n => n = 0

/-- Python `str(x)` on an `Optional[int]` (`str(None) = "None"`). -/
def pyStrOfOptNat : Option Nat → Str
  | none => litStr "None"
  | some n => natToStr n

/-- `CaseService._search_cases_by_type`: resolve the commission id, fill
in the default date range when either bound is missing, issue exactly one
upstream search call, and format the returned records, skipping malformed
ones. -/
def search_cases_by_type (u : Upstream) (year : Nat) (c : CacheState)
    (state_name commission_name search_value : Str) (search_type : Nat)
    (from_date to_date : Option Str) (page size : Nat) (judge_id : Str) :
    Except MapperError (List CaseResponse) × CacheState × List UpstreamCall :=
  match find_commission_by_name u c state_name commission_name with
  | (.error e, c1, calls1) => (.error e, c1, calls1)
  | (.ok commission_id, c1, calls1) =>
    let dates :=
      if falsyOptStr from_date || falsyOptStr to_date then get_default_date_range year
      else (from_date.getD [], to_date.getD [])
    let payload := search_cases_payload commission_id search_type search_value
      dates.1 dates.2 page size judge_id
    let cases_data := extract_cases (u.search_response payload)
    (.ok (format_all_cases cases_data), c1, calls1 ++ [.searchCases payload])

/-- `JudgeSearchRequest` (dates validated, names stripped by the request
model; pagination defaults applied). -/
structure JudgeSearchRequest where
  state : Str
  commission : Str
  judge_name : Option Str
  judge_id : Option Nat
  from_date : Option Str
  to_date : Option Str
  page : Nat
  size : Nat
deriving DecidableEq

/-- Python truthiness of the `judge_name` field. -/
def truthyOptStr (s : Option Str) : Bool := !falsyOptStr s

/-- `CaseService.search_by_judge`: when a judge name is given and the
judge id is falsy, resolve the commission and then the judge name within
it; then search with `search_type = 7`, an empty `search_value` and the
(string of the) judge id. -/
def search_by_judge (u : Upstream) (year : Nat) (c : CacheState)
    (request : JudgeSearchRequest) :
    Except MapperError (List CaseResponse) × CacheState × List UpstreamCall :=
  if truthyOptStr request.judge_name && falsyOptNat request.judge_id then
    match find_commission_by_name u c request.state request.commission with
    | (.error e, c1, calls1) => (.error e, c1, calls1)
    | (.ok commission_id, c1, calls1) =>
      match find_judge_by_name u c1 commission_id (request.judge_name.getD []) with
      | (.error e, c2, calls2) => (.error e, c2, calls1 ++ calls2)
      | (.ok judge, c2, calls2) =>
        let (result, c3, calls3) := search_cases_by_type u year c2 request.state
          request.commission [] 7 request.from_date request.to_date
          request.page request.size (natToStr judge.judge_id)
        (result, c3, calls1 ++ calls2 ++ calls3)
  else
    search_cases_by_type u year c request.state request.commission [] 7
      request.from_date request.to_date request.page request.size
      (pyStrOfOptNat request.judge_id)

/-- `IndustryTypeSearchRequest`. -/
structure IndustryTypeSearchRequest where
  state : Str
  commission : Str
  category_name : Option Str
  category_id : Option Nat
  from_date : Option Str
  to_date : Option Str
  page : Nat
  size : Nat
deriving DecidableEq

/-- A Python scalar as manipulated by `search_by_industry_type`
(`search_value = request.category_id or request.category_name`). -/
inductive PyScalar where
  | pNone
  | pInt (n : Nat)
  | pStr (s : Str)
deriving DecidableEq

def truthyScalar : PyScalar → Bool
  | .pNone => false
  | .pInt n => !(n = 0)
  | .pStr s => !s.isEmpty

/-- Python `a or b`: `a` if truthy else `b`. -/
def pyOr (a b : PyScalar) : PyScalar := if truthyScalar a then a else b

/-- Python `str(x)` on a scalar. -/
def pyStrOfScalar : PyScalar → Str
  | .pNone => litStr "None"
  | .pInt n => natToStr n
  | .pStr s => s

def scalarOfOptNat : Option Nat → PyScalar
  | none => .pNone
  | some n => .pInt n

def scalarOfOptStr : Option Str → PyScalar
  | none => .pNone
  | some s => .pStr s

/-- `CaseService.search_by_industry_type`: when a category name is given
and the category id is falsy, resolve the name to an id (global lookup);
then search with `search_type = 6` and the stringified value. -/
def search_by_industry_type (u : Upstream) (year : Nat) (c : CacheState)
    (request : IndustryTypeSearchRequest) :
    Except MapperError (List CaseResponse) × CacheState × List UpstreamCall :=
  let search_value0 := pyOr (scalarOfOptNat request.category_id)
    (scalarOfOptStr request.category_name)
  if truthyOptStr request.category_name && falsyOptNat request.category_id then
    match find_category_by_name u c (request.category_name.getD []) with
    | (.error e, c1, calls1) => (.error e, c1, calls1)
    | (.ok category, c1, calls1) =>
      let (result, c2, calls2) := search_cases_by_type u year c1 request.state
        request.commission (pyStrOfScalar (.pStr (natToStr category.category_id))) 6
        request.from_date request.to_date request.page request.size []
      (result, c2, calls1 ++ calls2)
  else
    search_cases_by_type u year c request.state request.commission
      (pyStrOfScalar search_value0) 6 request.from_date request.to_date
      request.page request.size []

/-! ## Search-result cache keys (`CacheService._generate_cache_key`) -/

/-- Key order on keyword-argument pairs: lexicographic codepoint order on
the keys (the order under which `json.dumps(..., sort_keys=True)` sorts
Python dict keys). -/
def kwargLe (a b : Str × Str) : Prop := a.1 ≤ b.1

instance : DecidableRel kwargLe := fun a b =>
  inferInstanceAs (Decidable (a.1 ≤ b.1))

instance : IsTotal (Str × Str) kwargLe := ⟨fun a b => le_total a.1 b.1⟩

instance : IsTrans (Str × Str) kwargLe := ⟨fun _ _ _ h1 h2 => le_trans h1 h2⟩

instance : IsAntisymm (Str × Str) (fun a b : Str × Str => a.1 < b.1) :=
  ⟨fun _ _ h1 h2 => absurd h2 (lt_asymm h1)⟩

/-- `_generate_cache_key`: `json.dumps(kwargs, sort_keys=True)` serializes
the keyword arguments with keys in sorted order, and the md5 hex digest of
that serialization is the cache key.  Serialization and digest are
injective-by-construction deterministic functions of the key-sorted pair
list, so the key is modelled as that sorted list itself. -/
def generate_cache_key (kwargs : List (Str × Str)) : List (Str × Str) :=
  List.insertionSort kwargLe kwargs

/-- Whether an upstream call is a case search (used to count search calls
in a trace). -/
def isSearchCall : UpstreamCall → Bool
  | .searchCases _ => true
  | _ => false

/-- A single-tier demo jurisdiction: one active state with no district
commissions. -/
def goaUpstream : Upstream :=
  { states_data := [⟨31, litStr "GOA", false, true⟩]
    districts_data := fun _ => []
    categories_data := []
    judges_data := fun _ => []
    search_response := fun _ => .bareList [] }

/-- An attempt trace whose first attempt hits a transport failure and
whose later attempts would succeed. -/
def transientThenSuccess : Nat → HttpxOutcome
  | 0 => .connectError
  | _ => .success 200

/-- A two-tier demo jurisdiction with one state, one district commission,
one category and one judge. -/
def gujaratUpstream : Upstream :=
  { states_data := [⟨11, litStr "GUJARAT", false, true⟩]
    districts_data := fun sid =>
      if sid = 11 then [⟨438, litStr "Ahmedabad City", false, true⟩] else []
    categories_data := [⟨43, litStr "BANKING"⟩]
    judges_data := fun cid => if cid = 438 then [⟨77, litStr "M.H.PATEL"⟩] else []
    search_response := fun _ => .bareList [] }

/-! ## Theorems -/

theorem get_all_states_calls_no_search (u : Upstream) (c : CacheState) :
    ((get_all_states u c).2.2).filter isSearchCall = [] := by
  unfold get_all_states
  dsimp only
  split <;> rfl

theorem get_commissions_calls_no_search (u : Upstream) (c : CacheState) (sid : Nat) :
    ((get_commissions_by_state u c sid).2.2).filter isSearchCall = [] := by
  unfold get_commissions_by_state
  split <;> rfl

theorem get_judges_calls_no_search (u : Upstream) (c : CacheState) (cid : Nat) :
    ((get_judges_by_commission u c cid).2.2).filter isSearchCall = [] := by
  unfold get_judges_by_commission
  split <;> rfl

theorem find_state_calls_no_search (u : Upstream) (c : CacheState) (sn : Str) :
    ((find_state_by_name u c sn).2.2).filter isSearchCall = [] := by
  unfold find_state_by_name
  rcases hG : get_all_states u c with ⟨states, c1, calls⟩
  have h := get_all_states_calls_no_search u c
  rw [hG] at h
  dsimp only
  cases states.find? (fun s => fuzzy_match sn s.commission_name) <;> exact h

theorem find_commission_calls_no_search (u : Upstream) (c : CacheState) (sn cn : Str) :
    ((find_commission_by_name u c sn cn).2.2).filter isSearchCall = [] := by
  unfold find_commission_by_name
  rcases hS : find_state_by_name u c sn with ⟨r, c1, calls1⟩
  have h1 := find_state_calls_no_search u c sn
  rw [hS] at h1
  cases r with
  | error e => exact h1
  | ok st =>
    dsimp only
    rcases hC : get_commissions_by_state u c1 st.commission_id with ⟨cs, c2, calls2⟩
    have h2 := get_commissions_calls_no_search u c1 st.commission_id
    rw [hC] at h2
    dsimp only
    rw [List.filter_append, h1, h2, List.nil_append]

theorem find_judge_calls_no_search (u : Upstream) (c : CacheState) (cid : Nat) (jn : Str) :
    ((find_judge_by_name u c cid jn).2.2).filter isSearchCall = [] := by
  unfold find_judge_by_name
  rcases hG : get_judges_by_commission u c cid with ⟨judges, c1, calls⟩
  have h := get_judges_calls_no_search u c cid
  rw [hG] at h
  dsimp only
  cases judges.find? (fun j => fuzzy_match jn j.judge_name) <;> exact h

/-- C6: for a search with no date range supplied whose commission
resolution succeeds, exactly one upstream search call is issued, carrying
`fromDate = YYYY-01-01` and `toDate = YYYY-12-31` of the current year, the
resolved commission id, the numeric search-type code, and
`dateRequestType = 1` for kinds 1–5 and `2` for kinds 6 and 7. -/
theorem default_date_range_single_search (u : Upstream) (year : Nat) (c : CacheState)
    (sn cn sv : Str) (stype pg sz : Nat) (jid : Str)
    (cid : Nat) (c1 : CacheState) (calls1 : List UpstreamCall)
    (hres : find_commission_by_name u c sn cn = (.ok cid, c1, calls1)) :
    ∃ P : SearchPayload,
      ((search_cases_by_type u year c sn cn sv stype none none pg sz jid).2.2).filter
        isSearchCall = [.searchCases P]
      ∧ P.commissionId = cid
      ∧ P.fromDate = natToStr year ++ litStr "-01-01"
      ∧ P.toDate = natToStr year ++ litStr "-12-31"
      ∧ P.serchType = stype
      ∧ P.serchTypeValue = sv
      ∧ P.page = pg ∧ P.size = sz ∧ P.judgeId = jid
      ∧ (1 ≤ stype → stype ≤ 5 → P.dateRequestType = 1)
      ∧ ((stype = 6 ∨ stype = 7) → P.dateRequestType = 2) := by
  refine ⟨search_cases_payload cid stype sv (natToStr year ++ litStr "-01-01")
      (natToStr year ++ litStr "-12-31") pg sz jid,
    ?_, rfl, rfl, rfl, rfl, rfl, rfl, rfl, rfl, ?_, ?_⟩
  · unfold search_cases_by_type
    rw [hres]
    dsimp only
    have h1 := find_commission_calls_no_search u c sn cn
    rw [hres] at h1
    rw [List.filter_append, h1, List.nil_append]
    rfl
  · intro hlo hhi
    unfold search_cases_payload
    rw [if_neg (by omega)]
  · intro h67
    unfold search_cases_payload
    rw [if_pos h67]

/-- Witness for C6: a case-number search (`searchType = 1`) against the
demo world with no dates issues one search call with the current-year
default range. -/
theorem default_date_range_single_search_witness :
    find_commission_by_name gujaratUpstream emptyCache
      (litStr "GUJARAT") (litStr "Ahmedabad City")
      = (.ok 438,
         ⟨some [⟨11, litStr "GUJARAT", false, true⟩], true, none, false,
          [(11, [⟨438, litStr "Ahmedabad City", false, true⟩])], [], []⟩,
         [.getStates, .getDistricts 11])
    ∧ ∃ P : SearchPayload,
      ((search_cases_by_type gujaratUpstream 2025 emptyCache (litStr "GUJARAT")
          (litStr "Ahmedabad City") (litStr "DC/AB1/484/CC/21/344") 1
          none none 0 30 []).2.2).filter isSearchCall = [.searchCases P]
      ∧ P.commissionId = 438
      ∧ P.fromDate = natToStr 2025 ++ litStr "-01-01"
      ∧ P.toDate = natToStr 2025 ++ litStr "-12-31"
      ∧ P.serchType = 1
      ∧ P.serchTypeValue = litStr "DC/AB1/484/CC/21/344"
      ∧ P.page = 0 ∧ P.size = 30 ∧ P.judgeId = []
      ∧ (1 ≤ 1 → 1 ≤ 5 → P.dateRequestType = 1)
      ∧ ((1 = 6 ∨ 1 = 7) → P.dateRequestType = 2) :=
  ⟨rfl,
   default_date_range_single_search gujaratUpstream 2025 emptyCache
     (litStr "GUJARAT") (litStr "Ahmedabad City") (litStr "DC/AB1/484/CC/21/344")
     1 0 30 [] 438
     ⟨some [⟨11, litStr "GUJARAT", false, true⟩], true, none, false,
      [(11, [⟨438, litStr "Ahmedabad City", false, true⟩])], [], []⟩
     [.getStates, .getDistricts 11] rfl⟩

theorem get_all_states_hit (u : Upstream) (c : CacheState) (data : List Commission)
    (hv : c.states_valid = true) (hc : c.states_cache = some data) (hne : data ≠ []) :
    get_all_states u c = (data, c, []) := by
  unfold get_all_states
  rw [hv, hc]
  simp [hne]

theorem get_all_states_cases (u : Upstream) (c : CacheState) :
    (c.states_valid = true ∧ ∃ data, c.states_cache = some data ∧ data ≠ [] ∧
      get_all_states u c = (data, c, []))
    ∨ ((get_all_states u c).1 = format_regions u.states_data
       ∧ (get_all_states u c).2.1
          = { c with states_cache := some (format_regions u.states_data),
                     states_valid := true }) := by
  by_cases hv : c.states_valid = true
  · cases hc : c.states_cache with
    | none =>
      right
      constructor <;> (unfold get_all_states; rw [hv, hc]; rfl)
    | some data =>
      by_cases hne : data = []
      · right
        subst hne
        constructor <;> (unfold get_all_states; rw [hv, hc]; rfl)
      · exact Or.inl ⟨hv, data, rfl, hne, get_all_states_hit u c data hv hc hne⟩
  · right
    rw [Bool.not_eq_true] at hv
    constructor <;> (unfold get_all_states; rw [hv]; rfl)

theorem get_all_states_stable (u : Upstream) (c c2 : CacheState)
    (hsc : c2.states_cache = (get_all_states u c).2.1.states_cache)
    (hsv : c2.states_valid = (get_all_states u c).2.1.states_valid) :
    (get_all_states u c2).1 = (get_all_states u c).1 := by
  rcases get_all_states_cases u c with ⟨hv, data, hc, hne, heq⟩ | ⟨h1, h2⟩
  · rw [heq] at hsc hsv ⊢
    dsimp only at hsc hsv
    rw [hc] at hsc
    rw [get_all_states_hit u c2 data (hsv.trans hv) hsc hne]
  · rw [h2] at hsc hsv
    dsimp only at hsc hsv
    rw [h1]
    by_cases hne : format_regions u.states_data = []
    · rcases get_all_states_cases u c2 with ⟨_, data2, hc2, hne2, heq2⟩ | ⟨h3, _⟩
      · rw [hsc] at hc2
        exact absurd (Option.some.inj hc2).symm (hne ▸ hne2)
      · exact h3
    · rw [get_all_states_hit u c2 _ hsv hsc hne]

theorem get_commissions_post (u : Upstream) (c : CacheState) (sid : Nat) :
    cacheLookup sid (get_commissions_by_state u c sid).2.1.commissions_cache
      = some (get_commissions_by_state u c sid).1 := by
  unfold get_commissions_by_state
  cases h : cacheLookup sid c.commissions_cache with
  | some data => exact h
  | none => simp [cacheLookup]

theorem get_commissions_hit (u : Upstream) (c : CacheState) (sid : Nat)
    (data : List Commission) (h : cacheLookup sid c.commissions_cache = some data) :
    get_commissions_by_state u c sid = (data, c, []) := by
  unfold get_commissions_by_state
  rw [h]

theorem get_commissions_preserves (u : Upstream) (c : CacheState) (sid : Nat) :
    (get_commissions_by_state u c sid).2.1.states_cache = c.states_cache
    ∧ (get_commissions_by_state u c sid).2.1.states_valid = c.states_valid
    ∧ (get_commissions_by_state u c sid).2.1.cases_cache = c.cases_cache := by
  unfold get_commissions_by_state
  cases h : cacheLookup sid c.commissions_cache <;> exact ⟨rfl, rfl, rfl⟩

theorem get_all_states_preserves (u : Upstream) (c : CacheState) :
    (get_all_states u c).2.1.commissions_cache = c.commissions_cache
    ∧ (get_all_states u c).2.1.cases_cache = c.cases_cache := by
  unfold get_all_states
  dsimp only
  split <;> exact ⟨rfl, rfl⟩

theorem find_state_eq (u : Upstream) (c : CacheState) (sn : Str) :
    find_state_by_name u c sn
      = (match (get_all_states u c).1.find? (fun s => fuzzy_match sn s.commission_name) with
         | some s => .ok s
         | none => .error (.stateNotFound sn),
         (get_all_states u c).2.1, (get_all_states u c).2.2) := by
  unfold find_state_by_name
  rcases hG : get_all_states u c with ⟨sts, c1, l⟩
  dsimp only
  cases sts.find? (fun s => fuzzy_match sn s.commission_name) <;> rfl

theorem find_state_stable (u : Upstream) (c c2 : CacheState) (sn : Str)
    (hsc : c2.states_cache = (find_state_by_name u c sn).2.1.states_cache)
    (hsv : c2.states_valid = (find_state_by_name u c sn).2.1.states_valid) :
    (find_state_by_name u c2 sn).1 = (find_state_by_name u c sn).1 := by
  rw [find_state_eq u c sn] at hsc hsv ⊢
  rw [find_state_eq u c2 sn]
  dsimp only at hsc hsv ⊢
  rw [get_all_states_stable u c c2 hsc hsv]

theorem get_judges_preserves (u : Upstream) (c : CacheState) (cid : Nat) :
    (get_judges_by_commission u c cid).2.1.states_cache = c.states_cache
    ∧ (get_judges_by_commission u c cid).2.1.states_valid = c.states_valid
    ∧ (get_judges_by_commission u c cid).2.1.commissions_cache = c.commissions_cache
    ∧ (get_judges_by_commission u c cid).2.1.cases_cache = c.cases_cache := by
  unfold get_judges_by_commission
  cases h : cacheLookup cid c.judges_cache <;> exact ⟨rfl, rfl, rfl, rfl⟩

theorem find_judge_eq (u : Upstream) (c : CacheState) (cid : Nat) (jn : Str) :
    find_judge_by_name u c cid jn
      = (match (get_judges_by_commission u c cid).1.find?
            (fun judge => fuzzy_match jn judge.judge_name) with
         | some judge => .ok judge
         | none => .error (.judgeNotFound jn),
         (get_judges_by_commission u c cid).2.1, (get_judges_by_commission u c cid).2.2) := by
  unfold find_judge_by_name
  rcases hG : get_judges_by_commission u c cid with ⟨js, c1, l⟩
  dsimp only
  cases js.find? (fun judge => fuzzy_match jn judge.judge_name) <;> rfl

theorem find_commission_stable (u : Upstream) (c c2 : CacheState) (sn cn : Str)
    (hsc : c2.states_cache = (find_commission_by_name u c sn cn).2.1.states_cache)
    (hsv : c2.states_valid = (find_commission_by_name u c sn cn).2.1.states_valid)
    (hcc : c2.commissions_cache
      = (find_commission_by_name u c sn cn).2.1.commissions_cache) :
    (find_commission_by_name u c2 sn cn).1 = (find_commission_by_name u c sn cn).1 := by
  unfold find_commission_by_name at hsc hsv hcc ⊢
  rcases hS : find_state_by_name u c sn with ⟨r, ca, la⟩
  rw [hS] at hsc hsv hcc
  cases r with
  | error e =>
    dsimp only at hsc hsv hcc ⊢
    have hst : (find_state_by_name u c2 sn).1 = (find_state_by_name u c sn).1 :=
      find_state_stable u c c2 sn (by rw [hS]; exact hsc) (by rw [hS]; exact hsv)
    rw [hS] at hst
    rcases hS2 : find_state_by_name u c2 sn with ⟨r2, cb, lb⟩
    rw [hS2] at hst
    dsimp only at hst
    subst hst
    rfl
  | ok st =>
    dsimp only at hsc hsv hcc ⊢
    rcases hC : get_commissions_by_state u ca st.commission_id with ⟨ds, cfin, lc⟩
    rw [hC] at hsc hsv hcc
    dsimp only at hsc hsv hcc
    have hpre := get_commissions_preserves u ca st.commission_id
    rw [hC] at hpre
    dsimp only at hpre
    have hst : (find_state_by_name u c2 sn).1 = (find_state_by_name u c sn).1 :=
      find_state_stable u c c2 sn
        (by rw [hS]; exact hsc.trans hpre.1) (by rw [hS]; exact hsv.trans hpre.2.1)
    rw [hS] at hst
    rcases hS2 : find_state_by_name u c2 sn with ⟨r2, cb, lb⟩
    rw [hS2] at hst
    dsimp only at hst
    subst hst
    dsimp only
    have hcb : cb = (get_all_states u c2).2.1 := by
      have h2 := (find_state_eq u c2 sn).symm.trans hS2
      exact (congrArg (fun t => t.2.1) h2).symm
    have hlook : cacheLookup st.commission_id cb.commissions_cache = some ds := by
      rw [hcb, (get_all_states_preserves u c2).1, hcc]
      have hp := get_commissions_post u ca st.commission_id
      rw [hC] at hp
      exact hp
    rw [get_commissions_hit u cb st.commission_id ds hlook]

theorem search_calls_shape (u : Upstream) (year : Nat) (c : CacheState)
    (sn cn sv : Str) (stype : Nat) (fd td : Option Str) (pg sz : Nat) (jid : Str)
    (cid : Nat) (c1 : CacheState) (calls1 : List UpstreamCall)
    (hres : find_commission_by_name u c sn cn = (.ok cid, c1, calls1)) :
    ∃ P : SearchPayload,
      ((search_cases_by_type u year c sn cn sv stype fd td pg sz jid).2.2).filter
        isSearchCall = [.searchCases P]
      ∧ P.commissionId = cid ∧ P.serchType = stype ∧ P.serchTypeValue = sv
      ∧ P.judgeId = jid := by
  have h1 := find_commission_calls_no_search u c sn cn
  rw [hres] at h1
  unfold search_cases_by_type
  rw [hres]
  dsimp only
  refine ⟨search_cases_payload cid stype sv
      (if falsyOptStr fd || falsyOptStr td then get_default_date_range year
       else (fd.getD [], td.getD [])).1
      (if falsyOptStr fd || falsyOptStr td then get_default_date_range year
       else (fd.getD [], td.getD [])).2 pg sz jid, ?_, rfl, rfl, rfl, rfl⟩
  rw [List.filter_append, h1, List.nil_append]
  rfl

/-- C7: a judge search given a judge name and no judge id first resolves
the commission id from the state and commission names, then resolves the
judge name within that commission (the judge id comes from that
commission's judge list, so the same name under another commission
resolves independently), and issues the single upstream search with an
empty `searchValue`, the resolved judge id in the `judgeId` field, and
the resolved commission id. -/
theorem judge_search_resolves_commission_then_judge (u : Upstream) (year : Nat)
    (c : CacheState) (request : JudgeSearchRequest) (nm : Str)
    (cid : Nat) (c1 : CacheState) (calls1 : List UpstreamCall)
    (judge : Judge) (c2 : CacheState) (calls2 : List UpstreamCall)
    (hname : request.judge_name = some nm) (hnm : nm ≠ [])
    (hid : request.judge_id = none)
    (hcomm : find_commission_by_name u c request.state request.commission
      = (.ok cid, c1, calls1))
    (hjudge : find_judge_by_name u c1 cid nm = (.ok judge, c2, calls2)) :
    ∃ P : SearchPayload,
      ((search_by_judge u year c request).2.2).filter isSearchCall = [.searchCases P]
      ∧ P.serchTypeValue = [] ∧ P.judgeId = natToStr judge.judge_id
      ∧ P.serchType = 7 ∧ P.commissionId = cid := by
  have hguard : (truthyOptStr request.judge_name && falsyOptNat request.judge_id)
      = true := by
    rw [hname, hid]
    simp [truthyOptStr, falsyOptStr, falsyOptNat, hnm]
  have hf1 : calls1.filter isSearchCall = [] := by
    have h := find_commission_calls_no_search u c request.state request.commission
    rw [hcomm] at h
    exact h
  have hf2 : calls2.filter isSearchCall = [] := by
    have h := find_judge_calls_no_search u c1 cid nm
    rw [hjudge] at h
    exact h
  have hc2 : (get_judges_by_commission u c1 cid).2.1 = c2 :=
    congrArg (fun t => t.2.1) ((find_judge_eq u c1 cid nm).symm.trans hjudge)
  have hjp := get_judges_preserves u c1 cid
  rw [hc2] at hjp
  have hstable := find_commission_stable u c c2 request.state request.commission
    (by rw [hcomm]; exact hjp.1) (by rw [hcomm]; exact hjp.2.1)
    (by rw [hcomm]; exact hjp.2.2.1)
  rw [hcomm] at hstable
  dsimp only at hstable
  rcases hR2 : find_commission_by_name u c2 request.state request.commission
    with ⟨r2, c4, calls4⟩
  rw [hR2] at hstable
  dsimp only at hstable
  subst hstable
  obtain ⟨P, hP, hPc, hPt, hPv, hPj⟩ := search_calls_shape u year c2 request.state
    request.commission [] 7 request.from_date request.to_date request.page
    request.size (natToStr judge.judge_id) cid c4 calls4 hR2
  refine ⟨P, ?_, hPv, hPj, hPt, hPc⟩
  unfold search_by_judge
  rw [hguard]
  rw [if_pos rfl, hcomm]
  try dsimp only
  rw [hname]
  try dsimp only
  rw [show (some nm).getD [] = nm from rfl, hjudge]
  try dsimp only
  rw [List.filter_append, List.filter_append, hf1, hf2, hP, List.nil_append,
    List.nil_append]

/-- Witness for C7: the judge `M.H.PATEL` of the demo world's commission
438 gives a search payload with empty `searchValue` and `judgeId = "77"`. -/
theorem judge_search_resolves_commission_then_judge_witness :
    (⟨litStr "GUJARAT", litStr "Ahmedabad City", some (litStr "M.H.PATEL"), none,
      none, none, 0, 30⟩ : JudgeSearchRequest).judge_name = some (litStr "M.H.PATEL")
    ∧ litStr "M.H.PATEL" ≠ []
    ∧ find_commission_by_name gujaratUpstream emptyCache (litStr "GUJARAT")
        (litStr "Ahmedabad City")
      = (.ok 438,
         ⟨some [⟨11, litStr "GUJARAT", false, true⟩], true, none, false,
          [(11, [⟨438, litStr "Ahmedabad City", false, true⟩])], [], []⟩,
         [.getStates, .getDistricts 11])
    ∧ find_judge_by_name gujaratUpstream
        ⟨some [⟨11, litStr "GUJARAT", false, true⟩], true, none, false,
         [(11, [⟨438, litStr "Ahmedabad City", false, true⟩])], [], []⟩
        438 (litStr "M.H.PATEL")
      = (.ok ⟨77, litStr "M.H.PATEL", 438⟩,
         ⟨some [⟨11, litStr "GUJARAT", false, true⟩], true, none, false,
          [(11, [⟨438, litStr "Ahmedabad City", false, true⟩])],
          [(438, [⟨77, litStr "M.H.PATEL", 438⟩])], []⟩,
         [.getJudges 438])
    ∧ ∃ P : SearchPayload,
      ((search_by_judge gujaratUpstream 2025 emptyCache
          ⟨litStr "GUJARAT", litStr "Ahmedabad City", some (litStr "M.H.PATEL"),
           none, none, none, 0, 30⟩).2.2).filter isSearchCall = [.searchCases P]
      ∧ P.serchTypeValue = [] ∧ P.judgeId = natToStr 77
      ∧ P.serchType = 7 ∧ P.commissionId = 438 :=
  ⟨rfl, by decide, rfl, rfl,
   judge_search_resolves_commission_then_judge gujaratUpstream 2025 emptyCache
     ⟨litStr "GUJARAT", litStr "Ahmedabad City", some (litStr "M.H.PATEL"),
      none, none, none, 0, 30⟩
     (litStr "M.H.PATEL") 438
     ⟨some [⟨11, litStr "GUJARAT", false, true⟩], true, none, false,
      [(11, [⟨438, litStr "Ahmedabad City", false, true⟩])], [], []⟩
     [.getStates, .getDistricts 11]
     ⟨77, litStr "M.H.PATEL", 438⟩
     ⟨some [⟨11, litStr "GUJARAT", false, true⟩], true, none, false,
      [(11, [⟨438, litStr "Ahmedabad City", false, true⟩])],
      [(438, [⟨77, litStr "M.H.PATEL", 438⟩])], []⟩
     [.getJudges 438] rfl (by decide) rfl rfl rfl⟩

/-- C3: among all commissions whose name fuzzy-matches the requested
commission name, a non-circuit-bench match always outranks every
circuit-bench match (when any non-circuit match exists the first one in
upstream list order is selected), ties within the same bench type are
broken by upstream list order, and in particular resolving name `"X"`
over `[{id:1,name:"X",circuit:true},{id:2,name:"X",circuit:false}]`
returns id 2. -/
theorem commission_tie_break (state_id : Nat) (commissions : List Commission)
    (commission_name : Str) (hne : commissions ≠ []) :
    (∀ m ms, (find_commission_matches commission_name commissions).filter
        (fun x => !x.is_circuit_bench) = m :: ms →
      find_commission_by_name_core state_id commissions commission_name
        = .ok m.commission_id)
    ∧ (∀ m ms, find_commission_matches commission_name commissions = m :: ms →
        (find_commission_matches commission_name commissions).filter
          (fun x => !x.is_circuit_bench) = [] →
      find_commission_by_name_core state_id commissions commission_name
        = .ok m.commission_id)
    ∧ (∀ sid, find_commission_by_name_core sid
        [⟨1, litStr "X", true, true⟩, ⟨2, litStr "X", false, true⟩] (litStr "X")
        = .ok 2) := by
  refine ⟨?_, ?_, fun sid => rfl⟩
  · intro m ms h
    unfold find_commission_by_name_core sort_matches_by_circuit
    rw [if_neg (by simpa using hne), h, List.cons_append]
  · intro m ms h1 h2
    have hall : ∀ x ∈ find_commission_matches commission_name commissions,
        x.is_circuit_bench = true := by
      intro x hx
      have := List.filter_eq_nil_iff.mp h2 x hx
      simpa using this
    unfold find_commission_by_name_core sort_matches_by_circuit
    rw [if_neg (by simpa using hne), h2, List.nil_append,
      List.filter_eq_self.mpr hall, h1]

/-- Witness for C3 at the concrete tie-break instance of the claim. -/
theorem commission_tie_break_witness :
    ([⟨1, litStr "X", true, true⟩, ⟨2, litStr "X", false, true⟩] : List Commission) ≠ []
    ∧ find_commission_by_name_core 7
        [⟨1, litStr "X", true, true⟩, ⟨2, litStr "X", false, true⟩] (litStr "X")
        = .ok 2 :=
  ⟨by decide,
   (commission_tie_break 7
     [⟨1, litStr "X", true, true⟩, ⟨2, litStr "X", false, true⟩]
     (litStr "X") (by decide)).2.2 7⟩

/-- C4: for a state whose commission list is empty, resolving any
commission name under that state returns the state's own id (never a
commission-not-found error). -/
theorem empty_commission_list_resolves_to_state (u : Upstream) (c : CacheState)
    (state_name commission_name : Str) (st : Commission) (c1 : CacheState)
    (calls1 : List UpstreamCall)
    (hstate : find_state_by_name u c state_name = (.ok st, c1, calls1))
    (hempty : (get_commissions_by_state u c1 st.commission_id).1 = []) :
    (find_commission_by_name u c state_name commission_name).1
      = .ok st.commission_id := by
  have hstep : find_commission_by_name u c state_name commission_name
      = (find_commission_by_name_core st.commission_id
           (get_commissions_by_state u c1 st.commission_id).1 commission_name,
         (get_commissions_by_state u c1 st.commission_id).2.1,
         calls1 ++ (get_commissions_by_state u c1 st.commission_id).2.2) := by
    unfold find_commission_by_name
    rw [hstate]
  rw [hstep, hempty]
  rfl

/-- Witness for C4: under the single-tier state `GOA` (id 31), resolving
the commission name `"Panaji"` returns 31. -/
theorem empty_commission_list_witness :
    find_state_by_name goaUpstream emptyCache (litStr "GOA")
      = (.ok ⟨31, litStr "GOA", false, true⟩,
         ⟨some [⟨31, litStr "GOA", false, true⟩], true, none, false, [], [], []⟩,
         [.getStates])
    ∧ (get_commissions_by_state goaUpstream
        ⟨some [⟨31, litStr "GOA", false, true⟩], true, none, false, [], [], []⟩ 31).1 = []
    ∧ (find_commission_by_name goaUpstream emptyCache (litStr "GOA") (litStr "Panaji")).1
      = .ok 31 :=
  ⟨rfl, rfl,
   empty_commission_list_resolves_to_state goaUpstream emptyCache
     (litStr "GOA") (litStr "Panaji") ⟨31, litStr "GOA", false, true⟩
     ⟨some [⟨31, litStr "GOA", false, true⟩], true, none, false, [], [], []⟩
     [.getStates] rfl rfl⟩

/-- C8: a raw record whose formatting fails is skipped and the remaining
records are returned formatted in their original order (the batch loop
computes the `filterMap` of the per-record formatter); in particular with
3 raw records where the 2nd is malformed, exactly the formatted 1st and
3rd records are returned. -/
theorem malformed_record_skipped :
    (∀ cases_data : List RawCase,
      format_all_cases cases_data = cases_data.filterMap format_case_data)
    ∧ ∀ (r1 r2 r3 : RawCase) (cr1 cr3 : CaseResponse),
        format_case_data r1 = some cr1 → format_case_data r2 = none →
        format_case_data r3 = some cr3 →
        format_all_cases [r1, r2, r3] = [cr1, cr3] := by
  constructor
  · intro cases_data
    induction cases_data with
    | nil => rfl
    | cons raw rest ih =>
      simp only [format_all_cases, List.filterMap_cons]
      cases format_case_data raw <;> simp [ih]
  · intro r1 r2 r3 cr1 cr3 h1 h2 h3
    simp [format_all_cases, h1, h2, h3]

/-- Witness for C8: the empty dict formats to the all-default record, a
record whose `caseNumber` is an integer fails `str` validation, and the
3-record batch with the malformed 2nd returns the 1st and 3rd. -/
theorem malformed_record_skipped_witness :
    format_case_data ([] : RawCase)
      = some ⟨[], [], [], [], none, none, none, none⟩
    ∧ format_case_data [(litStr "caseNumber", PyVal.vInt 5)] = none
    ∧ format_case_data [(litStr "caseNumber", PyVal.vStr (litStr "B"))]
      = some ⟨litStr "B", [], [], [], none, none, none, none⟩
    ∧ format_all_cases
        [[], [(litStr "caseNumber", PyVal.vInt 5)],
         [(litStr "caseNumber", PyVal.vStr (litStr "B"))]]
      = [⟨[], [], [], [], none, none, none, none⟩,
         ⟨litStr "B", [], [], [], none, none, none, none⟩] :=
  ⟨rfl, rfl, rfl,
   malformed_record_skipped.2 [] [(litStr "caseNumber", PyVal.vInt 5)]
     [(litStr "caseNumber", PyVal.vStr (litStr "B"))]
     ⟨[], [], [], [], none, none, none, none⟩
     ⟨litStr "B", [], [], [], none, none, none, none⟩ rfl rfl rfl⟩

/-- C9: a cached empty list is treated as a miss for the whole-value
states and categories caches (truthiness check `if cached_data:`), so the
upstream is re-fetched even while the TTL check passes; whereas for the
per-key commissions and judges caches (`if cached_data is not None:`) a
cached empty list is served without any upstream call. -/
theorem empty_list_cache_asymmetry :
    (∀ (u : Upstream) (c : CacheState), c.states_valid = true →
      c.states_cache = some [] → (get_all_states u c).2.2 = [.getStates])
    ∧ (∀ (u : Upstream) (c : CacheState), c.categories_valid = true →
      c.categories_cache = some [] → (get_all_categories u c).2.2 = [.getCategories])
    ∧ (∀ (u : Upstream) (c : CacheState) (state_id : Nat),
      cacheLookup state_id c.commissions_cache = some [] →
      get_commissions_by_state u c state_id = ([], c, []))
    ∧ (∀ (u : Upstream) (c : CacheState) (commission_id : Nat),
      cacheLookup commission_id c.judges_cache = some [] →
      get_judges_by_commission u c commission_id = ([], c, [])) := by
  refine ⟨?_, ?_, ?_, ?_⟩
  · intro u c hvalid hcache
    unfold get_all_states
    rw [hvalid, hcache]
    rfl
  · intro u c hvalid hcache
    unfold get_all_categories
    rw [hvalid, hcache]
    rfl
  · intro u c state_id hcache
    unfold get_commissions_by_state
    rw [hcache]
  · intro u c commission_id hcache
    unfold get_judges_by_commission
    rw [hcache]

/-- Witness for C9 on concrete cache states holding empty lists. -/
theorem empty_list_cache_asymmetry_witness :
    (⟨some [], true, some [], true, [(4, [])], [(9, [])], []⟩ : CacheState).states_valid = true
    ∧ (get_all_states goaUpstream
        ⟨some [], true, some [], true, [(4, [])], [(9, [])], []⟩).2.2 = [.getStates]
    ∧ (get_all_categories goaUpstream
        ⟨some [], true, some [], true, [(4, [])], [(9, [])], []⟩).2.2 = [.getCategories]
    ∧ get_commissions_by_state goaUpstream
        ⟨some [], true, some [], true, [(4, [])], [(9, [])], []⟩ 4
      = ([], ⟨some [], true, some [], true, [(4, [])], [(9, [])], []⟩, [])
    ∧ get_judges_by_commission goaUpstream
        ⟨some [], true, some [], true, [(4, [])], [(9, [])], []⟩ 9
      = ([], ⟨some [], true, some [], true, [(4, [])], [(9, [])], []⟩, []) :=
  ⟨rfl,
   empty_list_cache_asymmetry.1 goaUpstream _ rfl rfl,
   empty_list_cache_asymmetry.2.1 goaUpstream _ rfl rfl,
   empty_list_cache_asymmetry.2.2.1 goaUpstream _ 4 rfl,
   empty_list_cache_asymmetry.2.2.2 goaUpstream _ 9 rfl⟩

/-- C2: evaluation of the decorated `_make_request` at the claim's
scenarios.  The body of `_make_request` catches `httpx.ConnectError` /
`httpx.TimeoutException` and re-raises them as `APIConnectionException` /
`APITimeoutException` before the `tenacity` decorator can observe them,
and the decorator's predicate `retry_if_exception_type((httpx.TimeoutException,
httpx.ConnectError))` does not match the converted exceptions — so a
request whose first attempt fails at the transport level surfaces the
error after exactly 1 attempt instead of being retried and returning the
success of a later attempt; non-2xx responses likewise surface
immediately with their status code. -/
theorem make_request_never_retries :
    make_request transientThenSuccess = (.error .apiConnection, 1)
    ∧ make_request (fun _ => .timeout) = (.error .apiTimeout, 1)
    ∧ make_request (fun _ => .httpStatusError 502) = (.error (.jagritiAPIError 502), 1)
    ∧ make_request (fun _ => .success 200) = (.ok 200, 1)
    ∧ make_request_body .connectError = .error .apiConnection
    ∧ make_request_body .timeout = .error .apiTimeout
    ∧ isRetryableExc .apiConnection = false
    ∧ isRetryableExc .apiTimeout = false
    ∧ isRetryableExc .httpxConnect = true
    ∧ isRetryableExc .httpxTimeout = true :=
  ⟨rfl, rfl, rfl, rfl, rfl, rfl, rfl, rfl, rfl, rfl⟩

/-- C5 counterexample: normalization is not idempotent for every string.
Python `str.strip()` removes tabs as well as spaces, while the
replacement step removes only `"("`, `")"` and `" "`; on `"(\tx)"` the
first pass yields `"\tX"` (the parentheses are removed, exposing a
leading tab that was not at the boundary when `strip` ran) and the second
pass strips that tab, yielding `"X"`. -/
theorem normalize_not_idempotent_counterexample :
    normalize_text (normalize_text (litStr "(\tx)")) ≠ normalize_text (litStr "(\tx)")
    ∧ normalize_text (litStr "(\tx)") = litStr "\tX"
    ∧ normalize_text (normalize_text (litStr "(\tx)")) = litStr "X" := by
  refine ⟨by decide, by decide, by decide⟩

theorem upperN_idem (c : Nat) : upperN (upperN c) = upperN c := by
  by_cases h : 97 ≤ c ∧ c ≤ 122
  · simp only [upperN, if_pos h]
    rw [if_neg (by omega)]
  · simp only [upperN, if_neg h]

theorem mem_stripStr {c : Nat} {s : Str} (h : c ∈ stripStr s) : c ∈ s := by
  unfold stripStr at h
  rw [List.mem_reverse] at h
  have h1 := (List.dropWhile_sublist _).subset h
  rw [List.mem_reverse] at h1
  exact (List.dropWhile_sublist _).subset h1

theorem dropWhile_eq_self_of_none {p : Nat → Bool} {l : List Nat}
    (h : ∀ c ∈ l, p c = false) : l.dropWhile p = l := by
  cases l with
  | nil => rfl
  | cons a t => simp [List.dropWhile_cons, h a (by simp)]

theorem stripStr_eq_self {l : Str}
    (h : ∀ c ∈ l, decide (c ∈ pyWhitespace) = false) : stripStr l = l := by
  unfold stripStr
  rw [dropWhile_eq_self_of_none h,
    dropWhile_eq_self_of_none (fun c hc => h c (List.mem_reverse.mp hc)),
    List.reverse_reverse]

theorem mem_normalize {c : Nat} {s : Str} (h : c ∈ normalize_text s) :
    (∃ c0 ∈ s, c = upperN c0) ∧ ¬(c = 40 ∨ c = 41 ∨ c = 32) := by
  unfold normalize_text at h
  obtain ⟨hmem, hpass⟩ := List.mem_filter.mp h
  obtain ⟨c0, hc0, rfl⟩ := List.mem_map.mp hmem
  exact ⟨⟨c0, mem_stripStr hc0, rfl⟩, by simpa using hpass⟩

theorem normalize_no_ws {s : Str} (hs : ∀ ch ∈ s, ch ∈ pyWhitespace → ch = 32) :
    ∀ c ∈ normalize_text s, decide (c ∈ pyWhitespace) = false := by
  intro c hc
  obtain ⟨⟨c0, hc0s, rfl⟩, hpass⟩ := mem_normalize hc
  simp only [decide_eq_false_iff_not]
  intro hws
  by_cases h97 : 97 ≤ c0 ∧ c0 ≤ 122
  · rw [show upperN c0 = c0 - 32 by simp [upperN, h97]] at hws
    simp only [pyWhitespace, List.mem_cons, List.not_mem_nil, or_false] at hws
    omega
  · rw [show upperN c0 = c0 by simp [upperN, h97]] at hws hpass
    have h32 := hs c0 hc0s hws
    exact hpass (Or.inr (Or.inr h32))

theorem map_upperN_eq_self {l : List Nat} (h : ∀ c ∈ l, upperN c = c) :
    l.map upperN = l := by
  induction l with
  | nil => rfl
  | cons a t ih => simp [h a (by simp), ih (fun c hc => h c (by simp [hc]))]

/-- C5 amended: normalization is idempotent for every string whose
whitespace characters are all plain spaces (the counterexample above
forces this restriction: other whitespace can be exposed at the boundary
by the replacement step and is then stripped only on the second pass);
the claim's parenthesis/case-insensitivity instance holds, and matching
is reflexive. -/
theorem normalize_idempotent_amended :
    (∀ s : Str, (∀ ch ∈ s, ch ∈ pyWhitespace → ch = 32) →
      normalize_text (normalize_text s) = normalize_text s)
    ∧ normalize_text (litStr "Mumbai (Suburban)") = normalize_text (litStr "MUMBAI SUBURBAN")
    ∧ (∀ a : Str, fuzzy_match a a = true) := by
  refine ⟨?_, by decide, ?_⟩
  · intro s hs
    show ((stripStr (normalize_text s)).map upperN).filter _ = normalize_text s
    rw [stripStr_eq_self (normalize_no_ws hs),
      map_upperN_eq_self (fun c hc => by
        obtain ⟨⟨c0, _, rfl⟩, _⟩ := mem_normalize hc
        exact upperN_idem c0)]
    apply List.filter_eq_self.mpr
    intro c hc
    simpa using (mem_normalize hc).2
  · intro a
    simp [fuzzy_match]

/-- Witness for C5 amended at the claim's own example string. -/
theorem normalize_idempotent_amended_witness :
    (∀ ch ∈ litStr "Mumbai (Suburban)", ch ∈ pyWhitespace → ch = 32)
    ∧ normalize_text (normalize_text (litStr "Mumbai (Suburban)"))
      = normalize_text (litStr "Mumbai (Suburban)") :=
  ⟨by decide, normalize_idempotent_amended.1 (litStr "Mumbai (Suburban)") (by decide)⟩

theorem find_state_error_kind (u : Upstream) (c : CacheState) (sn : Str) :
    ∀ e, (find_state_by_name u c sn).1 = .error e → e = .stateNotFound sn := by
  intro e h
  unfold find_state_by_name at h
  rcases hG : get_all_states u c with ⟨states, c1, calls⟩
  rw [hG] at h
  dsimp only at h
  cases hF : states.find? (fun s => fuzzy_match sn s.commission_name) with
  | some st => rw [hF] at h; simp at h
  | none => rw [hF] at h; simp at h; exact h.symm

theorem core_error_kind (sid : Nat) (cs : List Commission) (cn : Str) :
    ∀ e, find_commission_by_name_core sid cs cn = .error e →
      e = .commissionNotFound cn := by
  intro e h
  unfold find_commission_by_name_core at h
  split at h
  · simp at h
  · split at h
    · simp at h
    · simp at h; exact h.symm

theorem find_commission_error_kind (u : Upstream) (c : CacheState) (sn cn : Str) :
    ∀ e, (find_commission_by_name u c sn cn).1 = .error e →
      e = .stateNotFound sn ∨ e = .commissionNotFound cn := by
  intro e h
  unfold find_commission_by_name at h
  rcases hS : find_state_by_name u c sn with ⟨r, c1, calls1⟩
  rw [hS] at h
  cases r with
  | error e2 =>
    dsimp only at h
    simp at h
    exact Or.inl (h.symm.trans (find_state_error_kind u c sn e2 (by rw [hS])))
  | ok st =>
    dsimp only at h
    rcases hC : get_commissions_by_state u c1 st.commission_id with ⟨cs, c2, calls2⟩
    rw [hC] at h
    dsimp only at h
    exact Or.inr (core_error_kind st.commission_id cs cn e h)

theorem search_error_kind (u : Upstream) (year : Nat) (c : CacheState)
    (sn cn sv : Str) (st : Nat) (fd td : Option Str) (pg sz : Nat) (jid : Str) :
    ∀ e, (search_cases_by_type u year c sn cn sv st fd td pg sz jid).1 = .error e →
      (find_commission_by_name u c sn cn).1 = .error e := by
  intro e h
  unfold search_cases_by_type at h
  rcases hR : find_commission_by_name u c sn cn with ⟨r, c1, calls1⟩
  rw [hR] at h
  cases r with
  | error e2 => dsimp only at h; simp at h; simp [h]
  | ok cid => dsimp only at h; simp at h

/-- C10: a supplied non-zero judge id (respectively category id) skips
name resolution entirely — the whole search is the plain shared search
with the stringified supplied id, even when a name is also given — and
a judge-not-found (category-not-found) error can never be raised for
such a request. -/
theorem supplied_id_skips_name_resolution :
    (∀ (u : Upstream) (year : Nat) (c : CacheState) (request : JudgeSearchRequest)
        (j : Nat), request.judge_id = some j → j ≠ 0 →
      search_by_judge u year c request
        = search_cases_by_type u year c request.state request.commission [] 7
            request.from_date request.to_date request.page request.size (natToStr j)
      ∧ ∀ s, (search_by_judge u year c request).1 ≠ .error (.judgeNotFound s))
    ∧ (∀ (u : Upstream) (year : Nat) (c : CacheState)
        (request : IndustryTypeSearchRequest) (k : Nat),
      request.category_id = some k → k ≠ 0 →
      search_by_industry_type u year c request
        = search_cases_by_type u year c request.state request.commission
            (natToStr k) 6 request.from_date request.to_date
            request.page request.size []
      ∧ ∀ s, (search_by_industry_type u year c request).1
          ≠ .error (.categoryNotFound s)) := by
  constructor
  · intro u year c request j hid hj
    have heq : search_by_judge u year c request
        = search_cases_by_type u year c request.state request.commission [] 7
            request.from_date request.to_date request.page request.size (natToStr j) := by
      unfold search_by_judge
      rw [hid]
      simp [falsyOptNat, hj, pyStrOfOptNat]
    refine ⟨heq, fun s hcontra => ?_⟩
    rw [heq] at hcontra
    rcases find_commission_error_kind u c request.state request.commission _
      (search_error_kind u year c request.state request.commission [] 7
        request.from_date request.to_date request.page request.size (natToStr j)
        _ hcontra) with h1 | h1 <;> exact MapperError.noConfusion h1
  · intro u year c request k hid hk
    have heq : search_by_industry_type u year c request
        = search_cases_by_type u year c request.state request.commission
            (natToStr k) 6 request.from_date request.to_date
            request.page request.size [] := by
      unfold search_by_industry_type
      rw [hid]
      simp [falsyOptNat, hk, pyOr, truthyScalar, scalarOfOptNat, pyStrOfScalar]
    refine ⟨heq, fun s hcontra => ?_⟩
    rw [heq] at hcontra
    rcases find_commission_error_kind u c request.state request.commission _
      (search_error_kind u year c request.state request.commission (natToStr k) 6
        request.from_date request.to_date request.page request.size []
        _ hcontra) with h1 | h1 <;> exact MapperError.noConfusion h1

/-- Witness for C10 with supplied ids 5 (judge) and 3 (category), names
also present. -/
theorem supplied_id_skips_name_resolution_witness :
    (⟨litStr "GUJARAT", litStr "Ahmedabad City", some (litStr "M.H.PATEL"),
      some 5, none, none, 0, 30⟩ : JudgeSearchRequest).judge_id = some 5
    ∧ (5 : Nat) ≠ 0
    ∧ search_by_judge gujaratUpstream 2025 emptyCache
        ⟨litStr "GUJARAT", litStr "Ahmedabad City", some (litStr "M.H.PATEL"),
         some 5, none, none, 0, 30⟩
      = search_cases_by_type gujaratUpstream 2025 emptyCache (litStr "GUJARAT")
          (litStr "Ahmedabad City") [] 7 none none 0 30 (natToStr 5)
    ∧ (⟨litStr "GUJARAT", litStr "Ahmedabad City", some (litStr "BANKING"),
        some 3, none, none, 0, 30⟩ : IndustryTypeSearchRequest).category_id = some 3
    ∧ search_by_industry_type gujaratUpstream 2025 emptyCache
        ⟨litStr "GUJARAT", litStr "Ahmedabad City", some (litStr "BANKING"),
         some 3, none, none, 0, 30⟩
      = search_cases_by_type gujaratUpstream 2025 emptyCache (litStr "GUJARAT")
          (litStr "Ahmedabad City") (natToStr 3) 6 none none 0 30 [] :=
  ⟨rfl, by decide,
   (supplied_id_skips_name_resolution.1 gujaratUpstream 2025 emptyCache
     ⟨litStr "GUJARAT", litStr "Ahmedabad City", some (litStr "M.H.PATEL"),
      some 5, none, none, 0, 30⟩ 5 rfl (by decide)).1,
   rfl,
   (supplied_id_skips_name_resolution.2 gujaratUpstream 2025 emptyCache
     ⟨litStr "GUJARAT", litStr "Ahmedabad City", some (litStr "BANKING"),
      some 3, none, none, 0, 30⟩ 3 rfl (by decide)).1⟩

/-- C1 counterexample: executing the same logical search twice with
identical parameters issues an upstream search call both times — the
second execution does not serve from the search-results cache, because
`_search_cases_by_type` never calls `cache.get_cases` / `cache.set_cases`
(the cases cache also stays empty). -/
theorem second_search_hits_upstream_counterexample :
    ((search_cases_by_type gujaratUpstream 2025
        (search_cases_by_type gujaratUpstream 2025 emptyCache (litStr "GUJARAT")
          (litStr "Ahmedabad City") (litStr "X") 1 none none 0 30 []).2.1
        (litStr "GUJARAT") (litStr "Ahmedabad City") (litStr "X") 1 none none
        0 30 []).2.2).filter isSearchCall
      = [.searchCases (search_cases_payload 438 1 (litStr "X")
          (natToStr 2025 ++ litStr "-01-01") (natToStr 2025 ++ litStr "-12-31")
          0 30 [])]
    ∧ ((search_cases_by_type gujaratUpstream 2025
        (search_cases_by_type gujaratUpstream 2025 emptyCache (litStr "GUJARAT")
          (litStr "Ahmedabad City") (litStr "X") 1 none none 0 30 []).2.1
        (litStr "GUJARAT") (litStr "Ahmedabad City") (litStr "X") 1 none none
        0 30 []).2.1).cases_cache = [] :=
  ⟨rfl, rfl⟩

theorem sorted_strict_of_key_nodup {l : List (Str × Str)}
    (hs : List.Sorted kwargLe l) (hn : (l.map Prod.fst).Nodup) :
    List.Sorted (fun a b : Str × Str => a.1 < b.1) l := by
  have hpw : l.Pairwise (fun a b => a.1 ≠ b.1) := List.pairwise_map.mp hn
  exact (List.Pairwise.and hs hpw).imp (fun h => lt_of_le_of_ne h.1 h.2)

theorem generate_cache_key_perm (kw1 kw2 : List (Str × Str))
    (hperm : kw1.Perm kw2) (hnodup : (kw1.map Prod.fst).Nodup) :
    generate_cache_key kw1 = generate_cache_key kw2 := by
  have hp1 := List.perm_insertionSort kwargLe kw1
  have hp2 := List.perm_insertionSort kwargLe kw2
  have hps : (generate_cache_key kw1).Perm (generate_cache_key kw2) :=
    hp1.trans (hperm.trans hp2.symm)
  have hn1 : ((generate_cache_key kw1).map Prod.fst).Nodup :=
    ((hp1.map Prod.fst).nodup_iff).mpr hnodup
  have hn2 : ((generate_cache_key kw2).map Prod.fst).Nodup :=
    ((hp2.map Prod.fst).nodup_iff).mpr ((hperm.map Prod.fst).nodup_iff.mp hnodup)
  exact List.eq_of_perm_of_sorted hps
    (sorted_strict_of_key_nodup (List.sorted_insertionSort kwargLe kw1) hn1)
    (sorted_strict_of_key_nodup (List.sorted_insertionSort kwargLe kw2) hn2)

theorem find_commission_preserves_cases (u : Upstream) (c : CacheState) (sn cn : Str) :
    (find_commission_by_name u c sn cn).2.1.cases_cache = c.cases_cache := by
  unfold find_commission_by_name
  rcases hS : find_state_by_name u c sn with ⟨r, ca, la⟩
  have hca : ca = (get_all_states u c).2.1 := by
    have h2 := (find_state_eq u c sn).symm.trans hS
    exact (congrArg (fun t => t.2.1) h2).symm
  have hfs : ca.cases_cache = c.cases_cache := by
    rw [hca]
    exact (get_all_states_preserves u c).2
  cases r with
  | error e => exact hfs
  | ok st =>
    dsimp only
    exact ((get_commissions_preserves u ca st.commission_id).2.2).trans hfs

/-- C1 amended: the cache key for search results is computed from a
canonical, order-independent serialization of the parameters (permuting
the keyword arguments yields the same key), but the search execution path
never consults or populates the search-results cache: every execution
leaves `cases_cache` unchanged and, whenever commission resolution
succeeds, issues its own upstream search call — including a repeat of an
identical search within the TTL. -/
theorem cache_key_canonical_but_results_cache_unused :
    (∀ kw1 kw2 : List (Str × Str), kw1.Perm kw2 → (kw1.map Prod.fst).Nodup →
      generate_cache_key kw1 = generate_cache_key kw2)
    ∧ (∀ (u : Upstream) (year : Nat) (c : CacheState) (sn cn sv : Str)
        (stype : Nat) (fd td : Option Str) (pg sz : Nat) (jid : Str),
      ((search_cases_by_type u year c sn cn sv stype fd td pg sz jid).2.1).cases_cache
        = c.cases_cache)
    ∧ (∀ (u : Upstream) (year : Nat) (c : CacheState) (sn cn sv : Str)
        (stype : Nat) (fd td : Option Str) (pg sz : Nat) (jid : Str)
        (cid : Nat) (c1 : CacheState) (calls1 : List UpstreamCall),
      find_commission_by_name u c sn cn = (.ok cid, c1, calls1) →
      ∃ P : SearchPayload,
        ((search_cases_by_type u year c sn cn sv stype fd td pg sz jid).2.2).filter
          isSearchCall = [.searchCases P]) := by
  refine ⟨generate_cache_key_perm, ?_, ?_⟩
  · intro u year c sn cn sv stype fd td pg sz jid
    unfold search_cases_by_type
    rcases hR : find_commission_by_name u c sn cn with ⟨r, c1, calls1⟩
    have hpres := find_commission_preserves_cases u c sn cn
    rw [hR] at hpres
    cases r <;> exact hpres
  · intro u year c sn cn sv stype fd td pg sz jid cid c1 calls1 hres
    obtain ⟨P, hP, _⟩ := search_calls_shape u year c sn cn sv stype fd td pg sz jid
      cid c1 calls1 hres
    exact ⟨P, hP⟩

/-- Witness for C1 amended: permuted keyword arguments give the same key,
and a concrete successful search leaves the cases cache empty while
issuing one upstream search call. -/
theorem cache_key_canonical_witness :
    ([(litStr "page", litStr "0"), (litStr "commission", litStr "A")].Perm
      [(litStr "commission", litStr "A"), (litStr "page", litStr "0")])
    ∧ generate_cache_key [(litStr "page", litStr "0"), (litStr "commission", litStr "A")]
      = generate_cache_key [(litStr "commission", litStr "A"), (litStr "page", litStr "0")]
    ∧ ((search_cases_by_type gujaratUpstream 2025 emptyCache (litStr "GUJARAT")
        (litStr "Ahmedabad City") (litStr "X") 1 none none 0 30 []).2.1).cases_cache
      = emptyCache.cases_cache
    ∧ ∃ P : SearchPayload,
      ((search_cases_by_type gujaratUpstream 2025 emptyCache (litStr "GUJARAT")
        (litStr "Ahmedabad City") (litStr "X") 1 none none 0 30 []).2.2).filter
        isSearchCall = [.searchCases P] :=
  ⟨List.Perm.swap _ _ _, 
   cache_key_canonical_but_results_cache_unused.1
     [(litStr "page", litStr "0"), (litStr "commission", litStr "A")]
     [(litStr "commission", litStr "A"), (litStr "page", litStr "0")]
     (List.Perm.swap _ _ _) (by decide),
   cache_key_canonical_but_results_cache_unused.2.1 gujaratUpstream 2025 emptyCache
     (litStr "GUJARAT") (litStr "Ahmedabad City") (litStr "X") 1 none none 0 30 [],
   cache_key_canonical_but_results_cache_unused.2.2 gujaratUpstream 2025 emptyCache
     (litStr "GUJARAT") (litStr "Ahmedabad City") (litStr "X") 1 none none 0 30 []
     438 ⟨some [⟨11, litStr "GUJARAT", false, true⟩], true, none, false,
       [(11, [⟨438, litStr "Ahmedabad City", false, true⟩])], [], []⟩
     [.getStates, .getDistricts 11] rfl⟩
